import Mathlib

/-!
Shallow embedding of the `sync_image` repository (src/sync_image.py and
src/image_search.py) together with proofs about its specification claims.

Conventions used throughout the embedding:
* Python strings are Lean `String`s.  The Python primitives used by the
  source (`str.split` with a single-character separator, `in` membership of
  a single character, `'/'.join`, `str.startswith`, `str.strip`) are
  embedded as the executable character-list functions `pySplit`,
  `pyContains`, `pyJoin`, `pyStartsWith` and `pyStrip` below, which mirror
  the Python semantics and reduce inside the kernel.
* Python's `s.split(sep)[0]` is embedded as `(pySplit s sep).getD 0 ""`;
  when `sep` does not occur in `s` both equal `s`, so the guarded
  `if sep in s: s = s.split(sep)[0]` idiom is embedded unconditionally.
* External effects (subprocess invocations, HTTP requests) are embedded as
  oracles: functions supplied as parameters that decide each call's outcome.
  The sequence of spawned commands / issued requests is returned as an
  explicit trace so that claims about what was (not) invoked are statable.
-/

namespace SyncImage

/-- Python `str.split` on a single-character separator, over a character
list: `splitChar c "a,b"` style splitting, with `[[]]` for the empty
string, exactly as `"".split(",") == [""]` in Python. -/
def splitChar (c : Char) : List Char → List (List Char)
  | [] => [[]]
  | x :: xs =>
    let r := splitChar c xs
    if x = c then [] :: r
    else (x :: r.headD []) :: r.tail

/-- Python `s.split(c)` for a single-character separator `c`. -/
def pySplit (s : String) (c : Char) : List String :=
  (splitChar c s.data).map String.mk

/-- Python `c in s` for a single character `c`. -/
def pyContains (s : String) (c : Char) : Bool :=
  s.data.contains c

/-- Python `sep.join(parts)` for a single-character separator. -/
def pyJoin (sep : Char) (parts : List String) : String :=
  String.mk (List.intercalate [sep] (parts.map String.data))

/-- Python `s.startswith(p)`. -/
def pyStartsWith (s p : String) : Bool :=
  p.data.isPrefixOf s.data

/-- Python `s.strip()` (whitespace on both ends). -/
def pyStrip (s : String) : String :=
  String.mk (((s.data.dropWhile Char.isWhitespace).reverse.dropWhile
    Char.isWhitespace).reverse)

/-- Embedding of `parse_image_name` (src/image_search.py, lines 8-47).
Strips the tag at the first ':' (Python `image_name.split(':')[0]`), then
splits on '/'.  Python's `'/' in image_name` test is embedded as the split
having more than one field, which is equivalent.  The first segment is
treated as a registry when it contains '.' or ':'; otherwise the
namespace/repository split follows the segment-count cases of the source,
including the `image = parts[0]` assignment in the final fallthrough
branch. -/
def parse_image_name (image_name : String) : String × String × String :=
  let name := (pySplit image_name ':').getD 0 ""
  let parts := pySplit name '/'
  if 1 < parts.length then
    let p0 := parts.getD 0 ""
    if pyContains p0 '.' || pyContains p0 ':' then
      if 3 ≤ parts.length then
        (p0, parts.getD 1 "", pyJoin '/' (parts.drop 2))
      else
        (p0, "library", parts.getD 1 "")
    else
      if parts.length = 2 then
        ("docker.io", parts.getD 0 "", parts.getD 1 "")
      else
        ("docker.io", "library", parts.getD 0 "")
  else
    ("docker.io", "library", name)

/-- Embedding of `get_image_registry` (src/sync_image.py, lines 177-201).
Strips a `@digest` suffix (the `if ":" in name: pass` in the source is a
no-op and is not embedded), then inspects the first '/'-segment. -/
def get_image_registry (full_image : String) : String :=
  let name := (pySplit full_image '@').getD 0 ""
  let parts := pySplit name '/'
  if parts.length = 1 then "docker.io"
  else
    let first := parts.getD 0 ""
    if first = "localhost" || pyContains first '.' || pyContains first ':' then
      first
    else "docker.io"

/-- The Docker-Hub alias set used by `sync_images`
(src/sync_image.py, line 244). -/
def dockerhub_aliases : List String :=
  ["docker.io", "index.docker.io", "registry-1.docker.io"]

/-- The login decision computed inline in `sync_images`
(src/sync_image.py, lines 240-246): direct membership of the credential's
registry among the images' inferred registries, or the one-directional
Docker-Hub-alias compatibility check. -/
def should_login (auth_registry : String) (images : List String) : Bool :=
  let regs := images.map get_image_registry
  regs.contains auth_registry ||
    (dockerhub_aliases.contains auth_registry && regs.contains "docker.io")

/-- One spawned external command.  The constructors stand for the exact
invocations of the source: `shellPull p s` for the shell string
`docker pull --platform {p} {s}` (src/sync_image.py line 102),
`shellTag s t` for `docker tag {s} {t}` (line 106), `shellPush t` for
`docker push {t}` (line 110), `inspect s` for
`docker image inspect {s}` (lines 47-52), and `login argv stdinData` for
the `subprocess.Popen(argv, stdin=PIPE)` login invocation whose standard
input receives `stdinData` (lines 145-153). -/
inductive Cmd where
  | shellPull (platform source : String)
  | shellTag (source target : String)
  | shellPush (target : String)
  | inspect (image : String)
  | login (argv : List String) (stdinData : String)
deriving DecidableEq, Repr

/-- Oracle for the external world of src/sync_image.py: exit status and
output of each `run_command` step, presence for `docker image inspect`,
and outcome of the `docker login` subprocess.  Login outcome and stdout
are keyed by registry and username (the program-visible data of the
invocation); modelling them as functions of those arguments captures that
the environment, not the program text, decides the login result. -/
structure DockerEnv where
  pullOk : String → String → Bool
  pullOut : String → String → List String
  tagOk : String → String → Bool
  tagOut : String → String → List String
  pushOk : String → Bool
  pushOut : String → List String
  existsLocally : String → Bool
  loginTimedOut : String → String → Bool
  loginOk : String → String → Bool
  loginStdout : String → String → String

/-- Result of one `sync_single_image` call: the returned success flag and
`messages` list, the full stream of lines handed to the output callback
(`messages` plus the streamed command output), and the trace of spawned
commands. -/
structure SingleResult where
  ok : Bool
  messages : List String
  emitted : List String
  trace : List Cmd
deriving DecidableEq, Repr

/-- Embedding of `sync_single_image` (src/sync_image.py, lines 58-114).
The source formats `image_part`/`tag_part` with `split(":")[0]` and
`split(":")[1]`, takes the last '/'-segment of `image_part` as
`short_name`, targets `repo/short_name:tag_part`, and runs
pull (unless `use_local` and the image is present locally), tag, push,
aborting at the first failing step. -/
def sync_single_image (env : DockerEnv) (full_image repo platform : String)
    (use_local : Bool) : SingleResult :=
  if pyContains full_image ':' then
    let source_full := full_image
    let image_part := (pySplit source_full ':').getD 0 ""
    let tag_part := (pySplit source_full ':').getD 1 ""
    let short_name := (pySplit image_part '/').getLastD ""
    let target_full := repo ++ "/" ++ short_name ++ ":" ++ tag_part
    let header := "\n[正在处理] " ++ source_full ++ " -> " ++ target_full
    let localHit := use_local && env.existsLocally source_full
    let preTrace : List Cmd := if use_local then [Cmd.inspect source_full] else []
    let preMsgs : List String :=
      if localHit then [header, "📦 使用本地已有镜像，跳过拉取"] else [header]
    let pullTrace : List Cmd :=
      if localHit then [] else [Cmd.shellPull platform source_full]
    let pullOut : List String :=
      if localHit then [] else env.pullOut platform source_full
    if !localHit && !env.pullOk platform source_full then
      { ok := false, messages := preMsgs, emitted := preMsgs ++ pullOut,
        trace := preTrace ++ pullTrace }
    else if !env.tagOk source_full target_full then
      { ok := false, messages := preMsgs,
        emitted := preMsgs ++ pullOut ++ env.tagOut source_full target_full,
        trace := preTrace ++ pullTrace ++ [Cmd.shellTag source_full target_full] }
    else if !env.pushOk target_full then
      { ok := false, messages := preMsgs,
        emitted := preMsgs ++ pullOut ++ env.tagOut source_full target_full
          ++ env.pushOut target_full,
        trace := preTrace ++ pullTrace
          ++ [Cmd.shellTag source_full target_full, Cmd.shellPush target_full] }
    else
      { ok := true, messages := preMsgs,
        emitted := preMsgs ++ pullOut ++ env.tagOut source_full target_full
          ++ env.pushOut target_full,
        trace := preTrace ++ pullTrace
          ++ [Cmd.shellTag source_full target_full, Cmd.shellPush target_full] }
  else
    let err := "❌ 跳过: \x27" ++ full_image ++ "\x27 (格式错误，需为 image:tag)"
    { ok := false, messages := [err], emitted := [err], trace := [] }

/-- The argv of the external login invocation
(src/sync_image.py, line 146). -/
def loginArgv (registry username : String) : List String :=
  ["docker", "login", registry, "-u", username, "--password-stdin"]

/-- Result of `docker_login`: success flag, lines handed to the output
callback, and the spawned command (if any). -/
structure LoginOut where
  ok : Bool
  emitted : List String
  trace : List Cmd
deriving DecidableEq, Repr

/-- Embedding of `docker_login` (src/sync_image.py, lines 116-174).
With a falsy username or password it returns success without spawning
anything; otherwise it spawns the login process with the password on its
standard input, then logs success, failure (with the process output), or
timeout according to the environment. -/
def docker_login (env : DockerEnv) (registry username password : String) :
    LoginOut :=
  if username == "" || password == "" then
    { ok := true, emitted := [], trace := [] }
  else
    let head := "🔐 正在登录到 " ++ registry ++ "..."
    let tr : List Cmd := [Cmd.login (loginArgv registry username) password]
    if env.loginTimedOut registry username then
      { ok := false, emitted := [head, "❌ 登录超时"], trace := tr }
    else
      let out := pyStrip (env.loginStdout registry username)
      let echoed := ((pySplit out '\n').filter (fun l => l ≠ "")).map
        (fun l => "  > " ++ l)
      if env.loginOk registry username then
        { ok := true, emitted := [head, "✅ 登录成功"] ++ echoed, trace := tr }
      else
        { ok := false, emitted := [head, "❌ 登录失败: " ++ out] ++ echoed,
          trace := tr }

/-- The architecture choice of `sync_images`; `arch_map` in the source
(src/sync_image.py, line 218) raises on anything else, and the CLI
restricts the choices to these two. -/
inductive Arch where
  | arm
  | amd64
deriving DecidableEq, Repr

/-- The `arch_map` lookup (src/sync_image.py, lines 218-219). -/
def arch_platform : Arch → String
  | Arch.arm => "linux/arm64"
  | Arch.amd64 => "linux/amd64"

/-- The Docker authentication record handed to `sync_images`
(`docker_auth` dict in the source); missing keys are embedded as `""`. -/
structure Credential where
  registry : String
  username : String
  password : String
deriving DecidableEq, Repr

/-- Accumulated output of the per-image loop of `sync_images`. -/
structure LoopOut where
  success_list : List String
  fail_list : List String
  messages : List String
  emitted : List String
  trace : List Cmd
deriving DecidableEq, Repr

/-- The per-image loop of `sync_images` (src/sync_image.py, lines
252-258): each image goes through `sync_single_image`; its messages extend
the transcript and the original string is appended to the success or fail
list. -/
def sync_loop (env : DockerEnv) (repo platform : String) (use_local : Bool) :
    List String → LoopOut
  | [] =>
    { success_list := [], fail_list := [], messages := [], emitted := [],
      trace := [] }
  | img :: rest =>
    let r := sync_single_image env img repo platform use_local
    let t := sync_loop env repo platform use_local rest
    { success_list := if r.ok then img :: t.success_list else t.success_list
      fail_list := if r.ok then t.fail_list else img :: t.fail_list
      messages := r.messages ++ t.messages
      emitted := r.emitted ++ t.emitted
      trace := r.trace ++ t.trace }

/-- The authentication step of `sync_images` (src/sync_image.py, lines
235-250): normalise the credential registry (`or "docker.io"` then
`.strip()`), decide via `should_login`, and on a failed login log the
warning and continue.  Messages of `docker_login` itself reach only the
output callback, not the returned transcript, exactly as in the source. -/
def sync_auth (env : DockerEnv) (docker_auth : Option Credential)
    (images : List String) : List String × List String × List Cmd :=
  match docker_auth with
  | none => ([], [], [])
  | some cred =>
    let auth_registry :=
      pyStrip (if cred.registry == "" then "docker.io" else cred.registry)
    let sl := should_login auth_registry images
    if sl && cred.username != "" && cred.password != "" then
      let lr := docker_login env auth_registry cred.username cred.password
      if lr.ok then ([], lr.emitted, lr.trace)
      else
        (["⚠️ 认证失败，但继续尝试同步（可能使用匿名访问）"],
          lr.emitted ++ ["⚠️ 认证失败，但继续尝试同步（可能使用匿名访问）"],
          lr.trace)
    else ([], [], [])

/-- The final report of `sync_images` (src/sync_image.py, lines 261-265). -/
def mkReport (succ fail : List String) : String :=
  let eq40 := "========================================"
  "\n" ++ eq40 ++ "\n📊 同步报告:\n✅ 成功 (" ++ toString succ.length ++ "): "
    ++ (if succ.isEmpty then "无" else String.intercalate ", " succ)
    ++ "\n❌ 失败 (" ++ toString fail.length ++ "): "
    ++ (if fail.isEmpty then "无" else String.intercalate ", " fail)
    ++ "\n" ++ eq40

/-- Result of a `sync_images` run: the returned dict (success list, fail
list, transcript `messages`), the full callback stream, and the command
trace. -/
structure SyncResult where
  success_list : List String
  fail_list : List String
  messages : List String
  emitted : List String
  trace : List Cmd
deriving DecidableEq, Repr

/-- Embedding of `sync_images` (src/sync_image.py, lines 204-272):
platform resolution, optional authentication, the sequential per-image
loop, and the final report. -/
def sync_images (env : DockerEnv) (images : List String) (repo : String)
    (arch : Arch) (docker_auth : Option Credential) (use_local : Bool) :
    SyncResult :=
  let platform := arch_platform arch
  let startMsg := "开始批量同步，目标架构: " ++ platform ++ "\n"
  let auth := sync_auth env docker_auth images
  let loop := sync_loop env repo platform use_local images
  let report := mkReport loop.success_list loop.fail_list
  { success_list := loop.success_list
    fail_list := loop.fail_list
    messages := [startMsg] ++ auth.1 ++ loop.messages ++ [report]
    emitted := [startMsg] ++ auth.2.1 ++ loop.emitted ++ [report]
    trace := auth.2.2 ++ loop.trace }

/-- One tag entry as built by the search functions: the `name`,
`last_updated` and `full_size`/`size` fields extracted from a JSON
result. -/
structure TagEntry where
  name : String
  last_updated : String
  size : Nat
deriving DecidableEq, Repr

/-- One Docker Hub API response page as consumed by
`search_docker_hub_tags` (src/image_search.py, lines 85-121): HTTP status,
the `results` entries (already reduced to the three fields the source
reads), and whether a `next` cursor is present. -/
structure HubPage where
  status : Nat
  results : List TagEntry
  next : Bool
deriving DecidableEq, Repr

/-- The tag entries appended from one 200-page: every result whose `name`
field is non-empty (src/image_search.py, lines 107-114). -/
def pageTags (p : HubPage) : List TagEntry :=
  p.results.filter (fun r => r.name ≠ "")

/-- Outcome of the Docker Hub pagination loop: the accumulated tag list on
normal exit, or the error result of a 404 / non-200 page. -/
inductive HubOut where
  | ok (tags : List TagEntry)
  | err (msg : String)
deriving DecidableEq, Repr

/-- The pagination loop of `search_docker_hub_tags`
(src/image_search.py, lines 80-122), over an oracle `pages` giving the
response to the request for each page number.  Arguments after the oracle:
remaining fuel, current page number, accumulated tags.  Returns the loop
outcome and the number of pages fetched.  The loop body checks
`len(tags) < limit`, then errors on 404 / non-200, breaks on an empty
`results`, appends the page's named results, breaks on a missing `next`
cursor, and breaks once the incremented page number exceeds 10.  The
source's `page > 10` break bounds the iteration count, so with fuel 10 and
starting page 1 the fuel-exhaustion branch is unreachable and the
embedding computes exactly the Python loop (`hub_go_fuel_irrelevant`
below). -/
def hub_go (pages : Nat → HubPage) (image_name : String) (limit : Nat) :
    Nat → Nat → List TagEntry → HubOut × Nat
  | fuel, page, tags =>
    if limit ≤ tags.length then (HubOut.ok tags, 0)
    else if (pages page).status = 404 then
      (HubOut.err ("镜像 " ++ image_name ++ " 不存在于 Docker Hub"), 1)
    else if (pages page).status ≠ 200 then
      (HubOut.err ("Docker Hub API 错误: HTTP " ++ toString (pages page).status), 1)
    else if (pages page).results.isEmpty then (HubOut.ok tags, 1)
    else if !(pages page).next then
      (HubOut.ok (tags ++ pageTags (pages page)), 1)
    else if 10 < page + 1 then
      (HubOut.ok (tags ++ pageTags (pages page)), 1)
    else
      match fuel with
      | 0 => (HubOut.ok (tags ++ pageTags (pages page)), 1)
      | f + 1 =>
        ((hub_go pages image_name limit f (page + 1)
            (tags ++ pageTags (pages page))).1,
         (hub_go pages image_name limit f (page + 1)
            (tags ++ pageTags (pages page))).2 + 1)

/-- The Docker Hub branch of `search_docker_hub_tags`: run the pagination
loop from page 1 and truncate the accumulated tags to `limit`
(`tags[:limit]`, src/image_search.py line 126). -/
def hub_tags_result (pages : Nat → HubPage) (image_name : String)
    (limit : Nat) : HubOut :=
  match (hub_go pages image_name limit 10 1 []).1 with
  | HubOut.ok tags => HubOut.ok (tags.take limit)
  | e => e

/-- Number of Docker Hub pages fetched by `search_docker_hub_tags`. -/
def hub_fetches (pages : Nat → HubPage) (image_name : String)
    (limit : Nat) : Nat :=
  (hub_go pages image_name limit 10 1 []).2

/-- The tags accumulated from the first `k` fetched pages, fetching from
page number `page` upward. -/
def hub_accum_from (pages : Nat → HubPage) : Nat → Nat → List TagEntry
  | _, 0 => []
  | page, k + 1 => pageTags (pages page) ++ hub_accum_from pages (page + 1) k

/-- A generic Registry v2 response to a `tags/list` request
(src/image_search.py, lines 185-215): HTTP status and the `tags` array. -/
structure RegResponse where
  status : Nat
  tags : List String
deriving DecidableEq, Repr

/-- One HTTP request issued by `search_registry_tags`: the URL and the
basic-auth pair handed to `requests.get`. -/
structure RegRequest where
  url : String
  auth : Option (String × String)
deriving DecidableEq, Repr

/-- A normalised tag-search result: the `success`/`tags`/`error` fields of
the dicts returned by the search functions. -/
structure TagSearchResult where
  success : Bool
  tags : List TagEntry
  error : String
deriving DecidableEq, Repr

/-- The image path of `search_registry_tags` (src/image_search.py, lines
163-166): a falsy or `"library"` namespace is dropped. -/
def reg_image_path (nsp image : String) : String :=
  if nsp != "" && nsp != "library" then nsp ++ "/" ++ image else image

/-- The base URL of `search_registry_tags` (src/image_search.py, lines
169-173): the registry's own scheme when it starts with `http://` or
`https://`, HTTPS otherwise. -/
def reg_base_url (registry : String) : String :=
  if pyStartsWith registry "http://" || pyStartsWith registry "https://" then
    registry
  else "https://" ++ registry

/-- The URL of the first request of `search_registry_tags`
(src/image_search.py, line 176). -/
def reg_url1 (registry nsp image : String) : String :=
  reg_base_url registry ++ "/v2/" ++ reg_image_path nsp image ++ "/tags/list"

/-- The URL of the HTTP fallback request of `search_registry_tags`
(src/image_search.py, lines 189-190). -/
def reg_url2 (registry nsp image : String) : String :=
  "http://" ++ registry ++ "/v2/" ++ reg_image_path nsp image ++ "/tags/list"

/-- The fallback condition of `search_registry_tags`
(src/image_search.py, line 188): first response status outside
{200, 401, 404} and `not registry.startswith('http')`. -/
def reg_fallback (http : String → Option (String × String) → RegResponse)
    (registry nsp image : String) (auth : Option (String × String)) : Bool :=
  let resp1 := http (reg_url1 registry nsp image) auth
  !(resp1.status == 200 || resp1.status == 401 || resp1.status == 404)
    && !(pyStartsWith registry "http")

/-- The response `search_registry_tags` ends up classifying: the fallback
response when the fallback request was issued, the first response
otherwise. -/
def reg_pick_response (http : String → Option (String × String) → RegResponse)
    (registry nsp image : String) (auth : Option (String × String)) :
    RegResponse :=
  if reg_fallback http registry nsp image auth then
    http (reg_url2 registry nsp image) auth
  else http (reg_url1 registry nsp image) auth

/-- Embedding of `search_registry_tags` (src/image_search.py, lines
149-238) over an oracle `http` mapping a URL and auth pair to a response.
Returns the result dict together with the trace of issued requests.
The final response is mapped through the 404 / 401 / non-200 / 200
cases. -/
def search_registry_tags (http : String → Option (String × String) → RegResponse)
    (registry nsp image : String) (auth : Option (String × String)) :
    TagSearchResult × List RegRequest :=
  let image_path := reg_image_path nsp image
  let resp := reg_pick_response http registry nsp image auth
  let reqs :=
    if reg_fallback http registry nsp image auth then
      [RegRequest.mk (reg_url1 registry nsp image) auth,
       RegRequest.mk (reg_url2 registry nsp image) auth]
    else [RegRequest.mk (reg_url1 registry nsp image) auth]
  if resp.status = 404 then
    ({ success := false, tags := [],
       error := "镜像 " ++ image_path ++ " 不存在于仓库 " ++ registry }, reqs)
  else if resp.status = 401 then
    ({ success := false, tags := [],
       error := "需要认证才能访问仓库 " ++ registry }, reqs)
  else if resp.status ≠ 200 then
    ({ success := false, tags := [],
       error := "Registry API 错误: HTTP " ++ toString resp.status }, reqs)
  else
    ({ success := true,
       tags := resp.tags.map (fun t => TagEntry.mk t "" 0), error := "" }, reqs)

/-- Embedding of `search_docker_hub_tags` (src/image_search.py, lines
50-146).  The Docker Hub page oracle is a function of the auth pair the
request carries; when `parse_image_name` yields a registry other than
`docker.io` / `registry-1.docker.io` the call is delegated to
`search_registry_tags` with the default `auth=None` of the source
(line 133). -/
def search_docker_hub_tags (hubPages : Option (String × String) → Nat → HubPage)
    (http : String → Option (String × String) → RegResponse)
    (image_name : String) (limit : Nat) (auth : Option (String × String)) :
    TagSearchResult :=
  let reg := (parse_image_name image_name).1
  let nsp := (parse_image_name image_name).2.1
  let image := (parse_image_name image_name).2.2
  if reg == "docker.io" || reg == "registry-1.docker.io" then
    match hub_tags_result (hubPages auth) image_name limit with
    | HubOut.ok tags => { success := true, tags := tags, error := "" }
    | HubOut.err e => { success := false, tags := [], error := e }
  else
    (search_registry_tags http reg nsp image none).1

/-- Embedding of `search_image_tags` (src/image_search.py, lines 310-330):
with a truthy `registry` outside the Docker-Hub alias list the query goes
to `search_registry_tags` with the namespace/image from
`parse_image_name` (the `limit` argument is not passed on); otherwise to
`search_docker_hub_tags`. -/
def search_image_tags (hubPages : Option (String × String) → Nat → HubPage)
    (http : String → Option (String × String) → RegResponse)
    (image_name : String) (registry : Option String) (limit : Nat)
    (auth : Option (String × String)) : TagSearchResult :=
  match registry with
  | some r =>
    if r != ""
        && !(["docker.io", "registry-1.docker.io", "hub.docker.com"].contains r) then
      let nsp := (parse_image_name image_name).2.1
      let image := (parse_image_name image_name).2.2
      (search_registry_tags http r nsp image auth).1
    else search_docker_hub_tags hubPages http image_name limit auth
  | none => search_docker_hub_tags hubPages http image_name limit auth

/-- Replaces the secret delivered on the login process's standard input by
`""`; command traces compared up to `scrubCmd` agree on everything except
that private input channel. -/
def scrubCmd : Cmd → Cmd
  | Cmd.login argv _ => Cmd.login argv ""
  | c => c

/-- A concrete environment in which every external command succeeds with
no output and no image is present locally. -/
def envAll : DockerEnv :=
  { pullOk := fun _ _ => true, pullOut := fun _ _ => []
    tagOk := fun _ _ => true, tagOut := fun _ _ => []
    pushOk := fun _ => true, pushOut := fun _ => []
    existsLocally := fun _ => false
    loginTimedOut := fun _ _ => false, loginOk := fun _ _ => true
    loginStdout := fun _ _ => "" }

/-- A concrete environment in which exactly the `docker tag` step for
source `img2:v2` fails and everything else succeeds. -/
def envTag2Fails : DockerEnv :=
  { pullOk := fun _ _ => true, pullOut := fun _ _ => []
    tagOk := fun s _ => !(s == "img2:v2"), tagOut := fun _ _ => []
    pushOk := fun _ => true, pushOut := fun _ => []
    existsLocally := fun _ => false
    loginTimedOut := fun _ _ => false, loginOk := fun _ _ => true
    loginStdout := fun _ _ => "" }

/-- A concrete HTTP oracle answering every request with status 500. -/
def http500 : String → Option (String × String) → RegResponse :=
  fun _ _ => { status := 500, tags := [] }

/-- A concrete HTTP oracle answering every request with status 200 and the
three tags `a`, `b`, `c`. -/
def http3tags : String → Option (String × String) → RegResponse :=
  fun _ _ => { status := 200, tags := ["a", "b", "c"] }

/-- A concrete Docker Hub page oracle: every page carries one tag named
after the page number and a `next` cursor. -/
def hubPagesEndless : Option (String × String) → Nat → HubPage :=
  fun _ n => { status := 200, results := [TagEntry.mk (toString n) "" 0], next := true }

/-- C4: for every `sourceRef` without a ':' character, `sync_single_image`
returns failure with a format-error log line and spawns no external
command at all (no pull, tag, push, or inspect invocation). -/
theorem C4_no_colon_no_commands (env : DockerEnv)
    (full_image repo platform : String) (use_local : Bool)
    (h : pyContains full_image ':' = false) :
    (sync_single_image env full_image repo platform use_local).ok = false
      ∧ (sync_single_image env full_image repo platform use_local).trace = []
      ∧ (sync_single_image env full_image repo platform use_local).messages
        = ["❌ 跳过: \x27" ++ full_image ++ "\x27 (格式错误，需为 image:tag)"] := by
  simp [sync_single_image, h]

/-- Witness for C4 at the tagless input `nginx`. -/
theorem C4_no_colon_no_commands_witness :
    (sync_single_image envAll "nginx" "r" "linux/arm64" false).ok = false
      ∧ (sync_single_image envAll "nginx" "r" "linux/arm64" false).trace = []
      ∧ (sync_single_image envAll "nginx" "r" "linux/arm64" false).messages
        = ["❌ 跳过: \x27nginx\x27 (格式错误，需为 image:tag)"] :=
  C4_no_colon_no_commands envAll "nginx" "r" "linux/arm64" false (by decide)

/-- C5 counterexample: `a/b/c` has three '/'-segments and a first segment
with neither '.' nor ':', yet `parse_image_name` returns the first segment
`a` as the repository, not the rejoined remainder `a/b/c` the claim
demands. -/
theorem C5_deep_path_counterexample :
    parse_image_name "a/b/c" = ("docker.io", "library", "a")
      ∧ pyContains "a" '.' = false ∧ pyContains "a" ':' = false
      ∧ (pySplit "a/b/c" '/').length = 3
      ∧ ("a" : String) ≠ "a/b/c" := by decide

/-- C5 (amended): for an input whose (tag-stripped) first '/'-segment
contains neither '.' nor ':', exactly 2 segments give
(namespace, repository) = (segment 1, segment 2); 3 or more segments give
namespace "library" and the *first* segment as the repository; a single
segment gives namespace "library" and the whole tag-stripped name. -/
theorem C5_no_registry_split (image_name : String)
    (hdot : pyContains ((pySplit ((pySplit image_name ':').getD 0 "") '/').getD 0 "") '.'
      = false)
    (hcol : pyContains ((pySplit ((pySplit image_name ':').getD 0 "") '/').getD 0 "") ':'
      = false) :
    ((pySplit ((pySplit image_name ':').getD 0 "") '/').length = 2 →
        parse_image_name image_name
          = ("docker.io",
             (pySplit ((pySplit image_name ':').getD 0 "") '/').getD 0 "",
             (pySplit ((pySplit image_name ':').getD 0 "") '/').getD 1 ""))
      ∧ (3 ≤ (pySplit ((pySplit image_name ':').getD 0 "") '/').length →
        parse_image_name image_name
          = ("docker.io", "library",
             (pySplit ((pySplit image_name ':').getD 0 "") '/').getD 0 ""))
      ∧ ((pySplit ((pySplit image_name ':').getD 0 "") '/').length ≤ 1 →
        parse_image_name image_name
          = ("docker.io", "library", (pySplit image_name ':').getD 0 "")) := by
  refine ⟨fun hl => ?_, fun hl => ?_, fun hl => ?_⟩ <;>
      simp only [parse_image_name] <;>
      split <;> (try split) <;> (try split) <;>
      first
        | rfl
        | omega
        | simp_all

/-- Witness for C5 (amended) at the two-segment input `team/app:v2`. -/
theorem C5_no_registry_split_witness :
    parse_image_name "team/app:v2" = ("docker.io", "team", "app") :=
  (C5_no_registry_split "team/app:v2" (by decide) (by decide)).1 (by decide)

/-- C2 counterexample: the image `index.docker.io/library/nginx:1`
resolves via `get_image_registry` to `index.docker.io`, one of the three
Docker-Hub names, yet with `auth.registry = "docker.io"` the login
decision is `false`: the alias equivalence of the code is one-directional
and does not recognise an image registry of `index.docker.io`. -/
theorem C2_alias_counterexample :
    get_image_registry "index.docker.io/library/nginx:1" = "index.docker.io"
      ∧ ("index.docker.io" : String) ∈ dockerhub_aliases
      ∧ should_login "docker.io" ["index.docker.io/library/nginx:1"] = false := by
  decide

/-- C2 (amended): the login decision is true exactly when some image's
inferred registry literally equals the credential's registry, or the
credential's registry is one of {docker.io, index.docker.io,
registry-1.docker.io} and some image's inferred registry is literally
"docker.io"; in particular it is false whenever no image resolves to the
credential's registry and no image resolves to "docker.io". -/
theorem C2_should_login_iff (auth_registry : String) (images : List String) :
    should_login auth_registry images = true
      ↔ ((∃ img ∈ images, get_image_registry img = auth_registry)
          ∨ (auth_registry ∈ dockerhub_aliases
             ∧ ∃ img ∈ images, get_image_registry img = "docker.io")) := by
  simp [should_login, List.contains]

/-- C3 counterexample: for `localhost:5000/nginx:1.25` (a ':' in the
host-port part) the code pushes `r/localhost:5000/nginx`, because it cuts
at the *first* ':' and uses the *second* ':'-field as the tag, not the
repository-part/trailing-tag split the claim states, which would give
`r/nginx:1.25`. -/
theorem C3_trailing_tag_counterexample :
    (sync_single_image envAll "localhost:5000/nginx:1.25" "r" "linux/arm64" false).ok
        = true
      ∧ (sync_single_image envAll "localhost:5000/nginx:1.25" "r" "linux/arm64" false).trace
        = [Cmd.shellPull "linux/arm64" "localhost:5000/nginx:1.25",
           Cmd.shellTag "localhost:5000/nginx:1.25" "r/localhost:5000/nginx",
           Cmd.shellPush "r/localhost:5000/nginx"]
      ∧ Cmd.shellPush "r/nginx:1.25"
          ∉ (sync_single_image envAll "localhost:5000/nginx:1.25" "r" "linux/arm64" false).trace := by
  decide

/-- C3 (amended): for every `sourceRef` containing a ':', the push target
is `targetRepo + "/" + shortName + ":" + tag` where the repository part is
everything before the *first* ':', `shortName` is its last '/'-segment,
and `tag` is the second ':'-delimited field of `sourceRef`; every push
command in the trace uses exactly this target, and on overall success the
push was spawned.  (For a `sourceRef` with exactly one ':' this coincides
with the original claim.) -/
theorem C3_push_target (env : DockerEnv) (full_image repo platform : String)
    (use_local : Bool) (h : pyContains full_image ':' = true) :
    (∀ t, Cmd.shellPush t
        ∈ (sync_single_image env full_image repo platform use_local).trace →
      t = repo ++ "/" ++ (pySplit ((pySplit full_image ':').getD 0 "") '/').getLastD ""
        ++ ":" ++ (pySplit full_image ':').getD 1 "")
      ∧ ((sync_single_image env full_image repo platform use_local).ok = true →
        Cmd.shellPush (repo ++ "/"
            ++ (pySplit ((pySplit full_image ':').getD 0 "") '/').getLastD ""
            ++ ":" ++ (pySplit full_image ':').getD 1 "")
          ∈ (sync_single_image env full_image repo platform use_local).trace) := by
  simp only [sync_single_image, h, if_true]
  constructor
  · intro t ht
    by_cases hu : use_local <;> by_cases he : env.existsLocally full_image <;>
      split at ht <;> (try split at ht) <;> (try split at ht) <;> simp_all
  · intro hok
    by_cases hu : use_local <;> by_cases he : env.existsLocally full_image <;>
      split at hok <;> (try split at hok) <;> (try split at hok) <;> simp_all

/-- Witness for C3 (amended) at `nginx:1.25`: the push targets
`r/nginx:1.25`. -/
theorem C3_push_target_witness :
    Cmd.shellPush "r/nginx:1.25"
      ∈ (sync_single_image envAll "nginx:1.25" "r" "linux/arm64" false).trace :=
  (C3_push_target envAll "nginx:1.25" "r" "linux/arm64" false (by decide)).2
    (by decide)

/-- C7 counterexample: the registry `httpreg.example` specifies no scheme
(it starts with neither `http://` nor `https://`), the HTTPS response
status 500 is outside {200, 401, 404}, yet only one request is issued:
the code's fallback guard tests the literal prefix `http`, which this
registry name matches. -/
theorem C7_http_prefix_counterexample :
    pyStartsWith "httpreg.example" "http://" = false
      ∧ pyStartsWith "httpreg.example" "https://" = false
      ∧ (http500 "https://httpreg.example/v2/img/tags/list" none).status = 500
      ∧ (search_registry_tags http500 "httpreg.example" "library" "img" none).2
        = [RegRequest.mk "https://httpreg.example/v2/img/tags/list" none] := by
  decide

/-- C7 (amended): the first request goes to the base URL (the registry's
own scheme when the registry string starts with `http://` or `https://`,
HTTPS otherwise), and a second request over HTTP is issued if and only if
the first response status is outside {200, 401, 404} and the registry
string does not start with the literal prefix `http`. -/
theorem C7_fallback_requests
    (http : String → Option (String × String) → RegResponse)
    (registry nsp image : String) (auth : Option (String × String)) :
    ((search_registry_tags http registry nsp image auth).2.length = 2
        ↔ ((http (reg_url1 registry nsp image) auth).status
              ∉ ([200, 401, 404] : List Nat)
            ∧ pyStartsWith registry "http" = false))
      ∧ ((search_registry_tags http registry nsp image auth).2.length = 1
          ∨ (search_registry_tags http registry nsp image auth).2.length = 2)
      ∧ ((search_registry_tags http registry nsp image auth).2.getD 0
            (RegRequest.mk "" none)
          = RegRequest.mk (reg_url1 registry nsp image) auth)
      ∧ (∀ req ∈ (search_registry_tags http registry nsp image auth).2,
          req = RegRequest.mk (reg_url1 registry nsp image) auth
            ∨ req = RegRequest.mk (reg_url2 registry nsp image) auth) := by
  have hr : (search_registry_tags http registry nsp image auth).2
      = if reg_fallback http registry nsp image auth then
          [RegRequest.mk (reg_url1 registry nsp image) auth,
           RegRequest.mk (reg_url2 registry nsp image) auth]
        else [RegRequest.mk (reg_url1 registry nsp image) auth] := by
    simp only [search_registry_tags]
    split <;> (try split) <;> (try split) <;> rfl
  rw [hr]
  cases hfb : reg_fallback http registry nsp image auth
  · simp [hfb]
    intro h200 h401 h404
    simp only [reg_fallback, Bool.and_eq_true, Bool.not_eq_true] at hfb
    simp [h200, h401, h404] at hfb
    simpa using hfb
  · simp [hfb]
    simp only [reg_fallback, Bool.and_eq_true, Bool.not_eq_true] at hfb
    simp only [Bool.not_eq_true', Bool.or_eq_false_iff, beq_eq_false_iff_ne] at hfb
    tauto

/-- C10: when `search_docker_hub_tags` is called on an image name whose
parsed registry is not a Docker-Hub alias, the query is delegated to the
generic registry search with `auth=None`, so the result is identical for
any two calls differing only in the auth credential. -/
theorem C10_non_hub_drops_auth
    (hubPages : Option (String × String) → Nat → HubPage)
    (http : String → Option (String × String) → RegResponse)
    (image_name : String) (limit : Nat) (a1 a2 : Option (String × String))
    (h1 : (parse_image_name image_name).1 ≠ "docker.io")
    (h2 : (parse_image_name image_name).1 ≠ "registry-1.docker.io") :
    search_docker_hub_tags hubPages http image_name limit a1
        = search_docker_hub_tags hubPages http image_name limit a2
      ∧ search_docker_hub_tags hubPages http image_name limit a1
        = (search_registry_tags http (parse_image_name image_name).1
            (parse_image_name image_name).2.1 (parse_image_name image_name).2.2
            none).1 := by
  have e1 : ((parse_image_name image_name).1 == "docker.io") = false := by
    simp [h1]
  have e2 : ((parse_image_name image_name).1 == "registry-1.docker.io") = false := by
    simp [h2]
  constructor <;> simp [search_docker_hub_tags, e1, e2]

/-- Witness for C10 at `reg.example/ns/img` with and without a
credential. -/
theorem C10_non_hub_drops_auth_witness :
    search_docker_hub_tags hubPagesEndless http3tags "reg.example/ns/img" 5 none
      = search_docker_hub_tags hubPagesEndless http3tags "reg.example/ns/img" 5
          (some ("user", "secret")) :=
  (C10_non_hub_drops_auth hubPagesEndless http3tags "reg.example/ns/img" 5 none
    (some ("user", "secret")) (by decide) (by decide)).1

/-- C9: with an explicit registry outside the Docker-Hub alias list,
`search_image_tags` ignores `limit`: the result is the same for any two
limits, equals the generic registry search result, and on success carries
every tag of the `tags/list` response. -/
theorem C9_explicit_registry_ignores_limit
    (hubPages : Option (String × String) → Nat → HubPage)
    (http : String → Option (String × String) → RegResponse)
    (image_name r : String) (auth : Option (String × String)) (l1 l2 : Nat)
    (hr : r ≠ "")
    (hna : r ∉ (["docker.io", "registry-1.docker.io", "hub.docker.com"] : List String)) :
    search_image_tags hubPages http image_name (some r) l1 auth
        = search_image_tags hubPages http image_name (some r) l2 auth
      ∧ search_image_tags hubPages http image_name (some r) l1 auth
        = (search_registry_tags http r (parse_image_name image_name).2.1
            (parse_image_name image_name).2.2 auth).1
      ∧ ((search_image_tags hubPages http image_name (some r) l1 auth).success
            = true →
        (search_image_tags hubPages http image_name (some r) l1 auth).tags
          = (reg_pick_response http r (parse_image_name image_name).2.1
              (parse_image_name image_name).2.2 auth).tags.map
              (fun t => TagEntry.mk t "" 0)) := by
  have hb : (r != "") = true := by simp [hr]
  have hc : (["docker.io", "registry-1.docker.io", "hub.docker.com"].contains r)
      = false := by
    simp [List.contains, hna]
  have hcond : ¬r = "docker.io" ∧ ¬r = "registry-1.docker.io"
      ∧ ¬r = "hub.docker.com" := by
    simpa using hna
  refine ⟨?_, ?_, ?_⟩
  · simp [search_image_tags, hb, hc, hcond]
  · simp [search_image_tags, hb, hc, hcond]
  · simp [search_image_tags, hb, hc, hcond]
    simp only [search_registry_tags]
    split <;> (try split) <;> (try split) <;> simp_all

/-- Witness for C9: the oracle returns three tags; a limit of 1 and a
limit of 5 give the same result. -/
theorem C9_explicit_registry_ignores_limit_witness :
    search_image_tags hubPagesEndless http3tags "ns/img" (some "reg.example") 1 none
      = search_image_tags hubPagesEndless http3tags "ns/img" (some "reg.example") 5
          none :=
  (C9_explicit_registry_ignores_limit hubPagesEndless http3tags "ns/img"
    "reg.example" none 1 5 (by decide) (by decide)).1

/-- The per-image loop keeps, in input order, exactly the images whose
single-image sync succeeded. -/
theorem sync_loop_success_eq (env : DockerEnv) (repo platform : String)
    (use_local : Bool) (images : List String) :
    (sync_loop env repo platform use_local images).success_list
      = images.filter
          (fun img => (sync_single_image env img repo platform use_local).ok) := by
  induction images with
  | nil => rfl
  | cons i rest ih =>
    by_cases hok : (sync_single_image env i repo platform use_local).ok <;>
      simp [sync_loop, List.filter_cons, hok, ih]

/-- The per-image loop keeps, in input order, exactly the images whose
single-image sync failed. -/
theorem sync_loop_fail_eq (env : DockerEnv) (repo platform : String)
    (use_local : Bool) (images : List String) :
    (sync_loop env repo platform use_local images).fail_list
      = images.filter
          (fun img => !(sync_single_image env img repo platform use_local).ok) := by
  induction images with
  | nil => rfl
  | cons i rest ih =>
    by_cases hok : (sync_single_image env i repo platform use_local).ok <;>
      simp [sync_loop, List.filter_cons, hok, ih]

/-- The per-image loop spawns, in input order, the commands of every
image's single-image sync. -/
theorem sync_loop_trace_eq (env : DockerEnv) (repo platform : String)
    (use_local : Bool) (images : List String) :
    (sync_loop env repo platform use_local images).trace
      = images.flatMap
          (fun img => (sync_single_image env img repo platform use_local).trace) := by
  induction images with
  | nil => rfl
  | cons i rest ih => simp [sync_loop, ih]

/-- C1: `sync_images` records every image, in input order, in exactly one
of the two result lists — the successes and the failures are the
order-preserving filters of the input by the per-image outcome — and every
image's commands are spawned regardless of earlier failures; in
particular, for a 3-image batch where only the 2nd fails (at the tag
step), the success list is [image1, image3], the fail list is [image2],
and all three pulls were attempted. -/
theorem C1_partition_order (env : DockerEnv) (images : List String)
    (repo : String) (arch : Arch) (auth : Option Credential) (use_local : Bool) :
    ((sync_images env images repo arch auth use_local).success_list
        = images.filter (fun img =>
          (sync_single_image env img repo (arch_platform arch) use_local).ok))
      ∧ ((sync_images env images repo arch auth use_local).fail_list
        = images.filter (fun img =>
          !(sync_single_image env img repo (arch_platform arch) use_local).ok))
      ∧ ((sync_images env images repo arch auth use_local).trace
        = (sync_auth env auth images).2.2
          ++ images.flatMap (fun img =>
            (sync_single_image env img repo (arch_platform arch) use_local).trace))
      ∧ (sync_images envTag2Fails ["img1:v1", "img2:v2", "img3:v3"] "r" Arch.arm
          none false).success_list = ["img1:v1", "img3:v3"]
      ∧ (sync_images envTag2Fails ["img1:v1", "img2:v2", "img3:v3"] "r" Arch.arm
          none false).fail_list = ["img2:v2"]
      ∧ Cmd.shellPull "linux/arm64" "img1:v1"
          ∈ (sync_images envTag2Fails ["img1:v1", "img2:v2", "img3:v3"] "r"
              Arch.arm none false).trace
      ∧ Cmd.shellPull "linux/arm64" "img2:v2"
          ∈ (sync_images envTag2Fails ["img1:v1", "img2:v2", "img3:v3"] "r"
              Arch.arm none false).trace
      ∧ Cmd.shellPull "linux/arm64" "img3:v3"
          ∈ (sync_images envTag2Fails ["img1:v1", "img2:v2", "img3:v3"] "r"
              Arch.arm none false).trace := by
  refine ⟨?_, ?_, ?_, by decide, by decide, by decide, by decide, by decide⟩
  · simpa [sync_images]
      using sync_loop_success_eq env repo (arch_platform arch) use_local images
  · simpa [sync_images]
      using sync_loop_fail_eq env repo (arch_platform arch) use_local images
  · simpa [sync_images]
      using sync_loop_trace_eq env repo (arch_platform arch) use_local images

/-- Starting at `page ≤ 10`, the pagination loop fetches at most
`11 - page` pages, whatever the fuel. -/
theorem hub_go_count_le (pages : Nat → HubPage) (image_name : String)
    (limit : Nat) :
    ∀ (fuel page : Nat) (tags : List TagEntry), page ≤ 10 →
      (hub_go pages image_name limit fuel page tags).2 + page ≤ 11 := by
  intro fuel
  induction fuel with
  | zero =>
    intro page tags hp
    rw [hub_go.eq_1]
    split <;> (try split) <;> (try split) <;> (try split) <;> (try split) <;>
      (try split) <;> (try simp) <;> omega
  | succ f ih =>
    intro page tags hp
    rw [hub_go.eq_2]
    split <;> (try split) <;> (try split) <;> (try split) <;> (try split) <;>
      (try split) <;> (try simp) <;> (try omega)
    have := ih (page + 1) (tags ++ pageTags (pages page)) (by omega)
    omega

/-- Every fetch of the pagination loop happens only while the accumulated
tag count is still below `limit`: before the `(k+1)`-th fetch of a run
starting with `tags` at `page`, the accumulated list is
`tags ++ hub_accum_from pages page k` and its length is `< limit`. -/
theorem hub_go_len_lt (pages : Nat → HubPage) (image_name : String)
    (limit : Nat) :
    ∀ (fuel page : Nat) (tags : List TagEntry) (k : Nat),
      k < (hub_go pages image_name limit fuel page tags).2 →
      (tags ++ hub_accum_from pages page k).length < limit := by
  intro fuel
  induction fuel with
  | zero =>
    intro page tags k hk
    rw [hub_go.eq_1] at hk
    split at hk <;> (try split at hk) <;> (try split at hk) <;>
      (try split at hk) <;> (try split at hk) <;> (try split at hk) <;>
      simp [Nat.lt_one_iff] at hk <;> subst hk <;>
      simp [hub_accum_from] <;> omega
  | succ f ih =>
    intro page tags k hk
    rw [hub_go.eq_2] at hk
    split at hk <;> (try split at hk) <;> (try split at hk) <;>
      (try split at hk) <;> (try split at hk) <;> (try split at hk) <;>
      (try (simp [Nat.lt_one_iff] at hk <;> subst hk <;>
        simp [hub_accum_from] <;> omega))
    simp only [Prod.snd] at hk
    cases k with
    | zero =>
      simp [hub_accum_from]
      omega
    | succ j =>
      have := ih (page + 1) (tags ++ pageTags (pages page)) j (by omega)
      simpa [hub_accum_from, List.append_assoc] using this
/-- The pagination loop performs a `(j+2)`-th fetch only if the
`(j+1)`-th fetched page was a 200-page carrying a `next` cursor and its
page number was below the 10-page cap. -/
theorem hub_go_cont (pages : Nat → HubPage) (image_name : String)
    (limit : Nat) :
    ∀ (fuel page : Nat) (tags : List TagEntry) (j : Nat),
      j + 1 < (hub_go pages image_name limit fuel page tags).2 →
      (pages (page + j)).next = true ∧ (pages (page + j)).status = 200
        ∧ page + j < 10 := by
  intro fuel
  induction fuel with
  | zero =>
    intro page tags j hj
    rw [hub_go.eq_1] at hj
    split at hj <;> (try split at hj) <;> (try split at hj) <;>
      (try split at hj) <;> (try split at hj) <;> (try split at hj) <;>
      simp at hj
  | succ f ih =>
    intro page tags j hj
    rw [hub_go.eq_2] at hj
    split at hj <;> (try split at hj) <;> (try split at hj) <;>
      (try split at hj) <;> (try split at hj) <;> (try split at hj) <;>
      (try (simp at hj))
    cases j with
    | zero =>
      refine ⟨?_, ?_, ?_⟩
      · simp_all
      · simp_all
      · omega
    | succ i =>
      have harith : page + (i + 1) = page + 1 + i := by omega
      rw [harith]
      exact ih (page + 1) (tags ++ pageTags (pages page)) i (by omega)

/-- Fuel does not matter once it covers the remaining page budget: the
embedding with fuel 10 from page 1 computes exactly the Python `while`
loop, whose iteration count is bounded by the `page > 10` break. -/
theorem hub_go_fuel_irrelevant (pages : Nat → HubPage) (image_name : String)
    (limit : Nat) :
    ∀ (f1 f2 page : Nat) (tags : List TagEntry),
      10 ≤ page + f1 → 10 ≤ page + f2 →
      hub_go pages image_name limit f1 page tags
        = hub_go pages image_name limit f2 page tags := by
  intro f1
  induction f1 with
  | zero =>
    intro f2 page tags h1 h2
    cases f2 with
    | zero => rfl
    | succ g =>
      rw [hub_go.eq_1, hub_go.eq_2]
      split <;> (try split) <;> (try split) <;> (try split) <;> (try split) <;>
        (try split) <;> first | rfl | omega
  | succ k ih =>
    intro f2 page tags h1 h2
    cases f2 with
    | zero =>
      rw [hub_go.eq_2, hub_go.eq_1]
      split <;> (try split) <;> (try split) <;> (try split) <;> (try split) <;>
        (try split) <;> first | rfl | omega
    | succ g =>
      rw [hub_go.eq_2, hub_go.eq_2]
      split <;> (try split) <;> (try split) <;> (try split) <;> (try split) <;>
        (try split) <;> (try rfl)
      have := ih g (page + 1) (tags ++ pageTags (pages page)) (by omega) (by omega)
      rw [this]

/-- C6: the Docker Hub pagination loop (started from page 1) fetches at
most 10 pages; a successful result never carries more than `limit` tag
entries; each fetch happens only while the accumulated tag count is still
below `limit`; and each fetch after the first happens only because the
previously fetched page was a 200-page carrying a `next` cursor within the
10-page cap — so the loop stops at the first of: accumulated count
reaching `limit`, no `next` cursor, or 10 pages fetched. -/
theorem C6_pagination_stop (pages : Nat → HubPage) (image_name : String)
    (limit : Nat) :
    hub_fetches pages image_name limit ≤ 10
      ∧ (∀ tags, hub_tags_result pages image_name limit = HubOut.ok tags →
          tags.length ≤ limit)
      ∧ (∀ k, k < hub_fetches pages image_name limit →
          (hub_accum_from pages 1 k).length < limit)
      ∧ (∀ j, j + 1 < hub_fetches pages image_name limit →
          (pages (1 + j)).next = true ∧ (pages (1 + j)).status = 200
            ∧ 1 + j < 10) := by
  refine ⟨?_, ?_, ?_, ?_⟩
  · have := hub_go_count_le pages image_name limit 10 1 [] (by omega)
    unfold hub_fetches
    omega
  · intro tags h
    unfold hub_tags_result at h
    cases heq : (hub_go pages image_name limit 10 1 []).1 with
    | ok tags0 =>
      rw [heq] at h
      simp only [HubOut.ok.injEq] at h
      rw [← h]
      simp [List.length_take]
    | err m =>
      rw [heq] at h
      simp at h
  · intro k hk
    have := hub_go_len_lt pages image_name limit 10 1 [] k hk
    simpa using this
  · intro j hj
    exact hub_go_cont pages image_name limit 10 1 [] j hj

/-- Witness for C6 at an endless 200-page oracle with limit 3: three
pages are fetched, the accumulation from the first 2 pages is below the
limit, and the 2nd fetched page carried a `next` cursor. -/
theorem C6_pagination_stop_witness :
    hub_fetches (hubPagesEndless none) "nginx" 3 ≤ 10
      ∧ (hub_accum_from (hubPagesEndless none) 1 2).length < 3
      ∧ (hubPagesEndless none (1 + 1)).next = true :=
  ⟨(C6_pagination_stop (hubPagesEndless none) "nginx" 3).1,
   (C6_pagination_stop (hubPagesEndless none) "nginx" 3).2.2.1 2 (by decide),
   ((C6_pagination_stop (hubPagesEndless none) "nginx" 3).2.2.2 1 (by decide)).1⟩

/-- `sync_single_image` spawns no login process. -/
theorem sync_single_image_no_login (env : DockerEnv)
    (full_image repo platform : String) (use_local : Bool)
    (argv : List String) (sec : String) :
    Cmd.login argv sec
      ∉ (sync_single_image env full_image repo platform use_local).trace := by
  intro hmem
  simp only [sync_single_image] at hmem
  by_cases h : pyContains full_image ':' = true
  · simp only [h, if_true] at hmem
    by_cases hu : use_local <;> by_cases he : env.existsLocally full_image <;>
      split at hmem <;> (try split at hmem) <;> (try split at hmem) <;> simp_all
  · simp [h] at hmem

/-- The per-image loop spawns no login process. -/
theorem sync_loop_no_login (env : DockerEnv) (repo platform : String)
    (use_local : Bool) (images : List String) (argv : List String)
    (sec : String) :
    Cmd.login argv sec ∉ (sync_loop env repo platform use_local images).trace := by
  induction images with
  | nil => simp [sync_loop]
  | cons i rest ih =>
    simp only [sync_loop, List.mem_append]
    intro hmem
    rcases hmem with hmem | hmem
    · exact sync_single_image_no_login env i repo platform use_local argv sec hmem
    · exact ih hmem

/-- With a non-empty username and password, `docker_login` spawns exactly
one login process carrying the password on standard input, and its success
flag and logged lines do not depend on the password. -/
theorem docker_login_secret (env : DockerEnv) (registry username p1 p2 : String)
    (hu : (username == "") = false) (h1 : (p1 == "") = false)
    (h2 : (p2 == "") = false) :
    (docker_login env registry username p1).ok
        = (docker_login env registry username p2).ok
      ∧ (docker_login env registry username p1).emitted
        = (docker_login env registry username p2).emitted
      ∧ (docker_login env registry username p1).trace
        = [Cmd.login (loginArgv registry username) p1] := by
  simp only [docker_login, hu, h1, h2, Bool.or_self, Bool.false_or, if_false]
  refine ⟨?_, ?_, ?_⟩ <;> (split <;> (try split) <;> (try split) <;> simp_all)

/-- `sync_auth` with two different non-empty secrets: the transcript
lines, emitted lines, and secret-scrubbed traces coincide. -/
theorem sync_auth_secret (env : DockerEnv) (images : List String)
    (registry username s1 s2 : String) (h1 : (s1 == "") = false)
    (h2 : (s2 == "") = false) :
    (sync_auth env (some (Credential.mk registry username s1)) images).1
        = (sync_auth env (some (Credential.mk registry username s2)) images).1
      ∧ (sync_auth env (some (Credential.mk registry username s1)) images).2.1
        = (sync_auth env (some (Credential.mk registry username s2)) images).2.1
      ∧ ((sync_auth env (some (Credential.mk registry username s1)) images).2.2.map
            scrubCmd
        = (sync_auth env (some (Credential.mk registry username s2)) images).2.2.map
            scrubCmd) := by
  have b1 : (s1 != "") = true := by simp [bne, h1]
  have b2 : (s2 != "") = true := by simp [bne, h2]
  simp only [sync_auth, b1, b2, Bool.and_true]
  set R := pyStrip (if registry == "" then "docker.io" else registry) with hR
  by_cases hc : (should_login R images && (username != "")) = true
  · have hu : (username == "") = false := by
      have := ((Bool.and_eq_true _ _).mp hc).2
      simpa [bne] using this
    have hd12 := docker_login_secret env R username s1 s2 hu h1 h2
    have hd21 := docker_login_secret env R username s2 s1 hu h2 h1
    simp only [hc, if_true]
    rw [hd12.1]
    refine ⟨?_, ?_, ?_⟩ <;> split <;>
      simp [hd12.2.1, hd12.2.2, hd21.2.2, scrubCmd]
  · simp [hc]

/-- Every login command in the `sync_auth` trace carries the normalised
registry/username argv and the secret on the stdin channel. -/
theorem sync_auth_login_mem (env : DockerEnv) (images : List String)
    (registry username s : String) (hs : (s == "") = false)
    (argv : List String) (sec : String)
    (hmem : Cmd.login argv sec
      ∈ (sync_auth env (some (Credential.mk registry username s)) images).2.2) :
    argv = loginArgv (pyStrip (if registry == "" then "docker.io" else registry))
        username
      ∧ sec = s := by
  have b1 : (s != "") = true := by simp [bne, hs]
  simp only [sync_auth, b1, Bool.and_true] at hmem ⊢
  set R := pyStrip (if registry == "" then "docker.io" else registry) with hR
  by_cases hc : (should_login R images && (username != "")) = true
  · have hu : (username == "") = false := by
      have := ((Bool.and_eq_true _ _).mp hc).2
      simpa [bne] using this
    have hd := docker_login_secret env R username s s hu hs hs
    simp only [hc, if_true] at hmem
    split at hmem <;> rw [hd.2.2] at hmem <;> simpa using hmem
  · simp [hc] at hmem

/-- C8: the credential secret is confined to the login stdin channel: two
sync runs differing only in a (non-empty) secret produce the same
transcript, the same emitted log stream, the same success/fail lists, and
the same command trace up to the login stdin field; and every login
command in the trace carries the fixed argv (no secret among the
arguments) with the secret delivered on standard input. -/
theorem C8_secret_confinement (env : DockerEnv) (images : List String)
    (repo : String) (arch : Arch) (use_local : Bool)
    (registry username s1 s2 : String) (h1 : s1 ≠ "") (h2 : s2 ≠ "") :
    ((sync_images env images repo arch
          (some (Credential.mk registry username s1)) use_local).messages
        = (sync_images env images repo arch
          (some (Credential.mk registry username s2)) use_local).messages)
      ∧ ((sync_images env images repo arch
          (some (Credential.mk registry username s1)) use_local).emitted
        = (sync_images env images repo arch
          (some (Credential.mk registry username s2)) use_local).emitted)
      ∧ ((sync_images env images repo arch
          (some (Credential.mk registry username s1)) use_local).success_list
        = (sync_images env images repo arch
          (some (Credential.mk registry username s2)) use_local).success_list)
      ∧ ((sync_images env images repo arch
          (some (Credential.mk registry username s1)) use_local).fail_list
        = (sync_images env images repo arch
          (some (Credential.mk registry username s2)) use_local).fail_list)
      ∧ ((sync_images env images repo arch
          (some (Credential.mk registry username s1)) use_local).trace.map scrubCmd
        = (sync_images env images repo arch
          (some (Credential.mk registry username s2)) use_local).trace.map scrubCmd)
      ∧ (∀ (argv : List String) (sec : String),
          Cmd.login argv sec ∈ (sync_images env images repo arch
            (some (Credential.mk registry username s1)) use_local).trace →
          argv = loginArgv
              (pyStrip (if registry == "" then "docker.io" else registry)) username
            ∧ sec = s1) := by
  have e1 : (s1 == "") = false := by simp [h1]
  have e2 : (s2 == "") = false := by simp [h2]
  have ha := sync_auth_secret env images registry username s1 s2 e1 e2
  refine ⟨?_, ?_, rfl, rfl, ?_, ?_⟩
  · simp only [sync_images]
    rw [ha.1]
  · simp only [sync_images]
    rw [ha.2.1]
  · simp only [sync_images, List.map_append]
    rw [ha.2.2]
  · intro argv sec hmem
    simp only [sync_images, List.mem_append] at hmem
    rcases hmem with hmem | hmem
    · exact sync_auth_login_mem env images registry username s1 e1 argv sec hmem
    · exact absurd hmem
        (sync_loop_no_login env repo (arch_platform arch) use_local images argv sec)

/-- Witness for C8: two runs with different secrets emit the same log
stream. -/
theorem C8_secret_confinement_witness :
    (sync_images envAll ["nginx:1"] "r" Arch.arm
        (some (Credential.mk "docker.io" "user" "hunter2")) false).emitted
      = (sync_images envAll ["nginx:1"] "r" Arch.arm
        (some (Credential.mk "docker.io" "user" "p4ss")) false).emitted :=
  (C8_secret_confinement envAll ["nginx:1"] "r" Arch.arm false "docker.io" "user"
    "hunter2" "p4ss" (by decide) (by decide)).2.1

end SyncImage
